import Mathlib

/-!
Verification of the version-resolution and conflict-reconciliation engine of
uv-keiko (`src/uv-keiko.py`, with the yarn/npm variant `src/yarn-keiko.py`
for the compatibility verifier).  The Python methods of `PackageUpdater` are
embedded as pure Lean functions; stateful pieces (the PyPI cache, the
subprocess-based verifier) are embedded with explicit state passing and an
explicit outcome type.  Library calls made by the source
(`packaging.version.parse`, `packaging.requirements.Requirement`) are
modelled by executable cores restricted to the fragments the source
exercises; each such definition carries a comment saying what is modelled.
-/

namespace UvKeiko

/-! ### Python string primitives (character-level, ASCII fragment) -/

/-- Python `str` whitespace for `strip()` / truthiness checks:
space, tab, newline, carriage return, vertical tab, form feed. -/
def pyIsSpace (c : Char) : Bool :=
  c = ' ' || c = '\t' || c = '\n' || c = '\r' || c = '\x0b' || c = '\x0c'

/-- Python `str.strip()` on a character list. -/
def pyStripList (cs : List Char) : List Char :=
  ((cs.dropWhile pyIsSpace).reverse.dropWhile pyIsSpace).reverse

/-- Python `str.strip()`. -/
def pyStrip (s : String) : String :=
  ⟨pyStripList s.data⟩

/-- Python `not dep or not dep.strip()` for a string `dep`: true exactly when
every character is whitespace (which also covers the empty string). -/
def pyIsBlank (s : String) : Bool :=
  s.data.all pyIsSpace

/-- Python `str.lower()`, character-wise.  `Char.toLower` lowers the ASCII
letters, which covers the package names, error texts and version strings the
source handles. -/
def pyLower (s : String) : String :=
  ⟨s.data.map Char.toLower⟩

/-- The character substitution of Python `str.replace('_', '-')`: replacing a
single-character substring by a single character is exactly a character map. -/
def dashChar (c : Char) : Char :=
  if c = '_' then '-' else c

/-- The registry client's name canonicalization (`get_package_info`, line 60):
`package_name.lower().replace('_', '-')`. -/
def pypiNormalize (s : String) : String :=
  ⟨(pyLower s).data.map dashChar⟩

/-- Auxiliary for the Python substring test `needle in hay`. -/
def containsSub (hay needle : List Char) : Bool :=
  match hay with
  | [] => needle.isEmpty
  | _ :: t => needle.isPrefixOf hay || containsSub t needle

/-- Python substring membership `needle in hay`. -/
def pyIn (needle hay : String) : Bool :=
  containsSub hay.data needle.data

/-- Python `str.split(sep)` for a single-character separator (never returns
an empty list; splitting the empty string yields one empty part). -/
def splitOnCharList (sep : Char) : List Char → List (List Char)
  | [] => [[]]
  | c :: rest =>
    match splitOnCharList sep rest with
    | [] => [[]]
    | h :: t => if c = sep then [] :: h :: t else (c :: h) :: t

/-- Numeric value of a digit run (used for version components). -/
def digitsToNat (cs : List Char) : Nat :=
  cs.foldl (fun a c => a * 10 + (c.toNat - 48)) 0

/-- Python code-point-lexicographic `<=` on strings, as used by `sorted`. -/
def strLeChars : List Char → List Char → Bool
  | [], _ => true
  | _ :: _, [] => false
  | a :: as, b :: bs => if a < b then true else if a = b then strLeChars as bs else false

/-- Insertion step for `sorted`. -/
def insertSortedChars (x : List Char) : List (List Char) → List (List Char)
  | [] => [x]
  | y :: ys => if strLeChars x y then x :: y :: ys else y :: insertSortedChars x ys

/-- Python `sorted` on a list of strings (insertion sort; stable, total). -/
def sortChars : List (List Char) → List (List Char)
  | [] => []
  | x :: xs => insertSortedChars x (sortChars xs)

/-- Python `','.join(...)`. -/
def joinComma : List (List Char) → List Char
  | [] => []
  | [x] => x
  | x :: y :: t => x ++ ',' :: joinComma (y :: t)

/-! ### Modelled `packaging.version` core

The source compares versions with `packaging.version.parse` and `>`
(`is_version_newer`, lines 143-151).  The modelled core covers plain
dotted-numeric releases, compared as zero-padded component tuples exactly as
`packaging` compares release segments; any other string counts as raising
`InvalidVersion`. -/

/-- Modelled `packaging.version.parse`: accepts `N(.N)*` and returns the
release components; anything else is `InvalidVersion` (`none`). -/
def parse_version (s : String) : Option (List Nat) :=
  let parts := splitOnCharList '.' s.data
  if parts.all (fun p => !p.isEmpty && p.all Char.isDigit) then
    some (parts.map digitsToNat)
  else none

/-- Strict order on release-component lists with implicit zero padding on the
right, as `packaging` orders release segments (`1.0 == 1.0.0`): an exhausted
left side is smaller exactly when a nonzero component remains on the right. -/
def relLt : List Nat → List Nat → Bool
  | [], ys => ys.any (fun y => y ≠ 0)
  | x :: xs, [] => if x ≠ 0 then false else relLt xs []
  | x :: xs, y :: ys => if x < y then true else if x = y then relLt xs ys else false

/-- `PackageUpdater.is_version_newer` (uv-keiko.py lines 137-151): true when
the old version is absent (or the empty string, which is falsy in Python);
otherwise `version.parse(new) > version.parse(old)`, with any
`InvalidVersion` meaning "assume newer". -/
def is_version_newer (new_version : String) (old_version : Option String) : Bool :=
  match old_version with
  | none => true
  | some old =>
    if old = "" then true
    else
      match parse_version new_version, parse_version old with
      | some newParsed, some oldParsed => relLt oldParsed newParsed
      | _, _ => true

/-! ### Modelled `packaging.requirements.Requirement` core

`parse_requirement` (uv-keiko.py lines 89-112) calls the library
`Requirement` constructor and reads `req.name`, `req.extras` and
`str(req.specifier)`.  The modelled core covers the PEP 508 fragment the
source exercises: a name, optional bracketed extras, an optional
comma-separated version specifier, and an optional `;`-introduced
environment marker (which `parse_requirement` never reads).  URL
requirements and parenthesized specifiers are outside the modelled fragment
and count as parse failures, which the source degrades to its regex
fallback. -/

/-- PEP 508 name characters (letters, digits, `.`, `-`, `_`). -/
def isNameChar (c : Char) : Bool :=
  c.isAlphanum || c = '.' || c = '-' || c = '_'

/-- Version-specifier operator characters. -/
def isOpChar (c : Char) : Bool :=
  c = '<' || c = '>' || c = '=' || c = '!' || c = '~'

/-- The PEP 440 comparison operators accepted in a specifier clause. -/
def validOp (op : List Char) : Bool :=
  op = ['=', '='] || op = ['!', '='] || op = ['<', '='] || op = ['>', '='] ||
  op = ['<'] || op = ['>'] || op = ['~', '='] || op = ['=', '=', '=']

/-- Characters allowed in the version part of a specifier clause
(release digits and letters, separators, wildcard, local and epoch marks). -/
def isSpecVerChar (c : Char) : Bool :=
  c.isAlphanum || c = '.' || c = '-' || c = '_' || c = '*' || c = '+' || c = '!'

/-- Whether the last character of a run is alphanumeric (PEP 508 requires a
name to end with a letter or digit). -/
def lastIsAlnum : List Char → Bool
  | [] => false
  | [c] => c.isAlphanum
  | _ :: c :: t => lastIsAlnum (c :: t)

/-- Parse one specifier clause (one comma-separated component): operator
followed by a version, whitespace tolerated; rendered without spaces, as
`str(Specifier)` renders it. -/
def parseSpecClause (cs : List Char) : Option (List Char) :=
  let t := pyStripList cs
  let op := t.takeWhile isOpChar
  let ver := pyStripList (t.dropWhile isOpChar)
  if validOp op && !ver.isEmpty && ver.all isSpecVerChar then some (op ++ ver)
  else none

/-- Collect a list of optional results, failing if any fails. -/
def seqOptions : List (Option (List Char)) → Option (List (List Char))
  | [] => some []
  | none :: _ => none
  | some a :: t => (seqOptions t).map (fun r => a :: r)

/-- Parse the optional bracketed extras block; returns the extras and the
remaining input.  Extras are identifiers separated by commas. -/
def parseExtrasBlock (cs : List Char) : Option (List (List Char) × List Char) :=
  match cs with
  | '[' :: rest =>
    let inside := rest.takeWhile (fun c => c ≠ ']')
    match rest.dropWhile (fun c => c ≠ ']') with
    | ']' :: rest2 =>
      let items := (splitOnCharList ',' inside).map pyStripList
      if items.all (fun i => !i.isEmpty && i.all isNameChar) then some (items, rest2)
      else none
    | _ => none
  | _ => some ([], cs)

/-- Parse the optional specifier (and tolerate a trailing `;` environment
marker, which is not rendered into the constraint).  Returns
`str(req.specifier)`: the individual clauses rendered without inner spaces
and joined with `,` in `sorted` order, exactly as
`SpecifierSet.__str__` does. -/
def parseSpecAndMarker (cs : List Char) : Option (List Char) :=
  let t := cs.dropWhile pyIsSpace
  match t with
  | [] => some []
  | ';' :: _ => some []
  | _ =>
    let specPart := t.takeWhile (fun c => c ≠ ';')
    match seqOptions ((splitOnCharList ',' specPart).map parseSpecClause) with
    | none => none
    | some rendered => some (joinComma (sortChars rendered))

/-- The fields of a parsed requirement that the source reads. -/
structure PyRequirement where
  name : String
  extras : List String
  specifierStr : String
  deriving DecidableEq, Repr

/-- Modelled `Requirement(req_string.strip())`: `none` models the constructor
raising `InvalidRequirement`. -/
def parseRequirementCore (s : String) : Option PyRequirement :=
  let t := pyStripList s.data
  let nameChars := t.takeWhile isNameChar
  let rest0 := t.dropWhile isNameChar
  match nameChars with
  | [] => none
  | c0 :: _ =>
    if c0.isAlphanum && lastIsAlnum nameChars then
      match parseExtrasBlock (rest0.dropWhile pyIsSpace) with
      | none => none
      | some (extrasItems, rest1) =>
        match parseSpecAndMarker rest1 with
        | none => none
        | some specChars =>
          some { name := ⟨nameChars⟩,
                 extras := (extrasItems.map (fun i => (⟨i⟩ : String))).eraseDups,
                 specifierStr := ⟨specChars⟩ }
    else none

/-- Characters of the fallback name regex `[a-zA-Z0-9_-]` (no dot). -/
def fallbackNameChar (c : Char) : Bool :=
  c.isAlphanum || c = '_' || c = '-'

/-- The optional group `(\[.*\])?` of the fallback regex: matches exactly
when the input starts with `[` and a `]` occurs later on the same line
(`.` does not match a newline); being greedy, it captures through the last
such `]`. -/
def fallbackExtras (cs : List Char) : List Char :=
  match cs with
  | '[' :: rest =>
    let line := rest.takeWhile (fun c => c ≠ '\n')
    let upto := (line.reverse.dropWhile (fun c => c ≠ ']')).reverse
    if upto.isEmpty then [] else '[' :: upto
  | _ => []

/-- Render `"[" + ",".join(sorted(req.extras)) + "]"` when extras are
present, else the empty string (uv-keiko.py line 97). -/
def renderExtras (extras : List String) : String :=
  if extras.isEmpty then ""
  else ⟨'[' :: joinComma (sortChars (extras.map String.data)) ++ [']']⟩

/-- `PackageUpdater.parse_requirement` (uv-keiko.py lines 89-112): returns
`(original_name, normalized_name, constraint, extras)`.  On a library parse
failure it falls back to the regex `^([a-zA-Z0-9_-]+)(\[.*\])?` over the
stripped string, and failing that returns the stripped string itself as the
name.  The normalized name is `name.lower()` in every branch. -/
def parse_requirement (req_string : String) : String × String × String × String :=
  match parseRequirementCore req_string with
  | some r => (r.name, pyLower r.name, r.specifierStr, renderExtras r.extras)
  | none =>
    let t := pyStripList req_string.data
    let nameChars := t.takeWhile fallbackNameChar
    if nameChars.isEmpty then
      (⟨t⟩, pyLower ⟨t⟩, "", "")
    else
      (⟨nameChars⟩, pyLower ⟨nameChars⟩, "",
       ⟨fallbackExtras (t.dropWhile fallbackNameChar)⟩)

/-! ### `extract_version_from_constraint` (uv-keiko.py lines 114-135)

The source applies `re.search` with pattern
`[><=~!]*\s*([0-9]+(?:\.[0-9]+)*(?:\.?[0-9a-zA-Z-]+)*)` to the stripped
first comma-separated clause.  Because the operator and whitespace parts can
match empty, the leftmost successful match always places the capture at the
first digit of the clause; a match exists exactly when the clause contains a
digit.  From that first digit, the greedy groups jointly consume the maximal
run of version characters in which every `.` is immediately followed by an
alphanumeric-or-hyphen character. -/

/-- Characters of the suffix group `[0-9a-zA-Z-]`. -/
def isVerSuffChar (c : Char) : Bool :=
  c.isAlphanum || c = '-'

/-- Maximal regex-matched run after the leading digit: version characters,
with any `.` required to be followed by one. -/
def verToken : List Char → List Char
  | [] => []
  | '.' :: c :: rest => if isVerSuffChar c then '.' :: c :: verToken rest else []
  | [c] => if c = '.' then [] else if isVerSuffChar c then [c] else []
  | c :: rest => if isVerSuffChar c then c :: verToken rest else []

/-- `PackageUpdater.extract_version_from_constraint`: `None` for an empty
constraint or a first clause without digits; otherwise the version token
captured by the regex from the stripped first comma-separated clause. -/
def extract_version_from_constraint (constraint : String) : Option String :=
  if constraint = "" then none
  else
    match splitOnCharList ',' constraint.data with
    | [] => none
    | first :: _ =>
      match (pyStripList first).dropWhile (fun c => !c.isDigit) with
      | [] => none
      | c :: rest => some ⟨c :: verToken rest⟩

/-! ### Data model

A dependency entry of the manifest dialect: either a literal declaration
string or a PEP 735 include-marker table `{"include-group": name}` (the only
non-string entry shape this manifest dialect has; the source tests for it
with `isinstance(dep, dict) and 'include-group' in dep`). -/

inductive Dep where
  | str (s : String)
  | includeGroup (group : String)
  deriving DecidableEq, Repr

/-- Whether an entry is an include-marker. -/
def isIncludeDep : Dep → Bool
  | .str _ => false
  | .includeGroup _ => true

/-- The literal string of a non-include entry. -/
def depStr : Dep → Option String
  | .str s => some s
  | .includeGroup _ => none

/-- The slice of the parsed `pyproject.toml` that the engine reads and
rewrites.  `none` models an absent table (the source guards each section
with `'project' in data and ... in data['project']` / `'dependency-groups'
in data`); group order follows Python's insertion-ordered dicts. -/
structure Manifest where
  dependencies : Option (List Dep)
  optionalDependencies : Option (List (String × List Dep))
  dependencyGroups : Option (List (String × List Dep))
  deriving DecidableEq, Repr

/-! ### Registry client (`get_package_info`, uv-keiko.py lines 57-76) -/

/-- The fields of the cached PyPI JSON payload that the source reads
(`data['info']['version']` in `get_latest_version`). -/
structure PyPIData where
  infoVersion : String
  deriving DecidableEq, Repr

/-- `PackageUpdater.get_package_info`, with the process state passed
explicitly: `fetch` is the (deterministic, per-run) network request, whose
`none` models `requests.RequestException`; `cache` is `self.package_cache`.
Returns the result, the updated cache, and whether a network fetch was
issued.  A failed fetch returns `None` and caches nothing. -/
def get_package_info (fetch : String → Option PyPIData)
    (cache : List (String × PyPIData)) (package_name : String) :
    Option PyPIData × List (String × PyPIData) × Bool :=
  let normalized_name := pypiNormalize package_name
  match cache.lookup normalized_name with
  | some data => (some data, cache, false)
  | none =>
    match fetch normalized_name with
    | some data => (some data, (normalized_name, data) :: cache, true)
    | none => (none, cache, true)

/-! ### Update planner (`update_dependency_list`, uv-keiko.py lines 319-371)

The planner's only interaction with the registry is
`get_latest_version(normalized_name)` (lines 78-87), which returns
`data['info']['version']` or `None`; it is passed here as the oracle
`getLatest`.  Include-marker entries never reach this function from
`update_pyproject`: they are filtered out at lines 421-424 before the call,
so the embedding takes the list of literal declaration strings. -/

def update_dependency_list (getLatest : String → Option String) :
    List String → List String × List String
  | [] => ([], [])
  | dep :: rest =>
    if pyIsBlank dep then update_dependency_list getLatest rest
    else
      let pr := parse_requirement dep
      match getLatest pr.2.1 with
      | some latestVersion =>
        let oldVersion := extract_version_from_constraint pr.2.2.1
        let newDep := pr.1 ++ pr.2.2.2 ++ ">=" ++ latestVersion
        let p := update_dependency_list getLatest rest
        if is_version_newer latestVersion oldVersion then
          (newDep :: p.1,
           (pr.1 ++ ": " ++ oldVersion.getD "none" ++ " -> " ++ latestVersion) :: p.2)
        else (newDep :: p.1, p.2)
      | none =>
        let p := update_dependency_list getLatest rest
        (dep :: p.1, p.2)

/-- The declaration the planner emits for one non-blank literal entry
(the per-iteration body of `update_dependency_list`): the floor rewrite when
the registry resolves the normalized name, the original string otherwise. -/
def plan_dep (getLatest : String → Option String) (dep : String) : String :=
  let pr := parse_requirement dep
  match getLatest pr.2.1 with
  | some latestVersion => pr.1 ++ pr.2.2.2 ++ ">=" ++ latestVersion
  | none => dep

/-- The update record the planner emits for one non-blank literal entry,
if any: present exactly when the registry resolved the name and
`is_version_newer` holds of latest vs extracted-old. -/
def plan_record (getLatest : String → Option String) (dep : String) : Option String :=
  let pr := parse_requirement dep
  match getLatest pr.2.1 with
  | some latestVersion =>
    let oldVersion := extract_version_from_constraint pr.2.2.1
    if is_version_newer latestVersion oldVersion then
      some (pr.1 ++ ": " ++ oldVersion.getD "none" ++ " -> " ++ latestVersion)
    else none
  | none => none

/-- The per-group body of the PEP 735 dependency-group pass of
`update_pyproject` (uv-keiko.py lines 417-435): include-markers are filtered
out, the literal entries are planned, and the include-markers are appended
after the planned entries; a group consisting only of include-markers (or an
empty group) is kept as is. -/
def update_dependency_group (getLatest : String → Option String) (deps : List Dep) :
    List Dep × List String :=
  if deps.isEmpty then (deps, [])
  else
    let regularDeps := deps.filter (fun d => !isIncludeDep d)
    let includeGroups := deps.filter isIncludeDep
    if regularDeps.isEmpty then (deps, [])
    else
      let p := update_dependency_list getLatest (regularDeps.filterMap depStr)
      (p.1.map Dep.str ++ includeGroups, p.2)

/-! ### Lock-derived rewriting (`apply_compatible_versions`, lines 256-317) -/

/-- The per-entry body shared by the three loops of
`apply_compatible_versions`: a literal declaration whose parsed normalized
name is a key of the lock-derived map is rewritten to a floor constraint on
the lock version; other literals and include-markers are appended
unchanged. -/
def apply_dep_versions (package_versions : List (String × String)) (d : Dep) : Dep :=
  match d with
  | .str s =>
    let pr := parse_requirement s
    match package_versions.lookup pr.2.1 with
    | some compatibleVersion => .str (pr.1 ++ pr.2.2.2 ++ ">=" ++ compatibleVersion)
    | none => d
  | .includeGroup _ => d

/-- `PackageUpdater.apply_compatible_versions`: applies the per-entry rewrite
to the main dependency list, every optional-dependency group and every named
dependency group (each section only when present). -/
def apply_compatible_versions (data : Manifest)
    (package_versions : List (String × String)) : Manifest :=
  { data with
    dependencies := data.dependencies.map (List.map (apply_dep_versions package_versions)),
    optionalDependencies := data.optionalDependencies.map
      (List.map (fun p => (p.1, p.2.map (apply_dep_versions package_versions)))),
    dependencyGroups := data.dependencyGroups.map
      (List.map (fun p => (p.1, p.2.map (apply_dep_versions package_versions)))) }

/-! ### Conflict resolver (uv-keiko.py lines 194-254) -/

/-- Whether a dependency entry is an offending `safety` declaration:
the source parses the entry and tests `name.lower() != 'safety'`. -/
def isSafetyDep : Dep → Bool
  | .str s => pyLower (parse_requirement s).1 == "safety"
  | .includeGroup _ => false

/-- The inner `remove_safety_from_deps` loop of
`auto_resolve_psutil_safety_conflict` (lines 202-213): literal declarations
parsing to the name `safety` are dropped, everything else (including
non-string entries) is kept.  The dependency-groups branch (lines 221-234)
inlines the identical loop. -/
def remove_safety_from_deps : List Dep → List Dep
  | [] => []
  | d :: rest =>
    match d with
    | .str s =>
      if pyLower (parse_requirement s).1 ≠ "safety" then d :: remove_safety_from_deps rest
      else remove_safety_from_deps rest
    | .includeGroup _ => d :: remove_safety_from_deps rest

/-- `PackageUpdater.auto_resolve_psutil_safety_conflict` (lines 194-238):
removes `safety` from every optional-dependency group and from every named
dependency group.  The source has no branch for `project.dependencies`, so
the main dependency list is left untouched. -/
def auto_resolve_psutil_safety_conflict (data : Manifest) : Manifest :=
  { data with
    optionalDependencies := data.optionalDependencies.map
      (List.map (fun p => (p.1, remove_safety_from_deps p.2))),
    dependencyGroups := data.dependencyGroups.map
      (List.map (fun p => (p.1, remove_safety_from_deps p.2))) }

/-- `PackageUpdater.auto_resolve_conflicts` (lines 240-254): the psutil/safety
fix fires when the lowercased error text contains both `psutil` and `safety`;
otherwise the manifest is returned unchanged. -/
def auto_resolve_conflicts (data : Manifest) (error_output : String) : Manifest :=
  let errorLower := pyLower error_output
  if pyIn "psutil" errorLower && pyIn "safety" errorLower then
    auto_resolve_psutil_safety_conflict data
  else data

/-- The conflict-resolution tail of `update_pyproject` (uv-keiko.py lines
494-517), reached when `uv lock --upgrade` failed with `error_output` on
stderr.  In the source, `auto_resolve_conflicts` mutates the dict `data` in
place and returns that very same object, so when the guard
`if resolved_data != data:` runs, both names hold the identical (already
fixed) dict and the comparison is always false; the embedding records this
by rebinding `data` to `resolved_data` before the comparison.  `check_uv`
is the `check_uv_compatibility` re-check as a function of the manifest. -/
def resolve_after_lock_failure (data : Manifest) (error_output : String)
    (check_uv : Manifest → Bool) (all_updated_packages : List String) :
    Manifest × List String :=
  let resolved_data := auto_resolve_conflicts data error_output
  let data := resolved_data
  if resolved_data ≠ data then
    if check_uv resolved_data then
      (resolved_data,
       all_updated_packages ++
         ["CONFLICT RESOLVED: Removed safety package for psutil>=7.0.0 compatibility"])
    else (data, all_updated_packages)
  else (data, all_updated_packages)

/-! ### Compatibility verifier (uv-keiko.py lines 153-192 and
yarn-keiko.py lines 136-190) -/

/-- How one invocation of the external package manager can go: the tool is
absent from the search path (`shutil.which` fails), the launch or the
temp-directory setup raises, the bounded timeout expires
(`subprocess.TimeoutExpired`, also caught by the `except`), or the tool runs
to completion with an exit code. -/
inductive RunOutcome where
  | toolMissing
  | launchError
  | timedOut
  | exited (code : Int)
  deriving DecidableEq, Repr

/-- `PackageUpdater.check_uv_compatibility`: `True` when uv is missing or any
exception (including the timeout) occurs; otherwise the verdict is
`returncode == 0`. -/
def check_uv_compatibility : RunOutcome → Bool
  | .toolMissing => true
  | .launchError => true
  | .timedOut => true
  | .exited code => code == 0

/-- `PackageUpdater.check_package_manager_compatibility` (yarn-keiko.py):
same fail-open shape; in npm mode exit codes 0 and 1 both count as
compatible (audit warnings), and any other code falls through to the
`returncode == 0` test. -/
def check_package_manager_compatibility (useNpm : Bool) : RunOutcome → Bool
  | .toolMissing => true
  | .launchError => true
  | .timedOut => true
  | .exited code => if useNpm && (code == 0 || code == 1) then true else code == 0

/-! ### Concrete inputs used by counterexamples and witnesses -/

/-- A manifest whose only `safety` declaration sits in the main dependency
list. -/
def mainOnlyManifest : Manifest :=
  { dependencies := some [Dep.str "safety>=3.6.0", Dep.str "psutil>=7.0.0"],
    optionalDependencies := none,
    dependencyGroups := none }

/-- A manifest with a `safety` declaration in the `dev` optional group. -/
def conflictDemoManifest : Manifest :=
  { dependencies := none,
    optionalDependencies := some [("dev", [Dep.str "safety>=3.6.0", Dep.str "psutil>=7.0.0"])],
    dependencyGroups := none }

/-- An error text mentioning both conflicting packages. -/
def psutilSafetyError : String :=
  "No solution found: psutil>=7.0.0 conflicts with safety 3.6.0"

/-- A one-package registry oracle for planner witnesses. -/
def demoGetLatest : String → Option String :=
  fun n => if n = "pkg" then some "1.9.0" else none

/-- A registry fetch that always fails (network error on every request). -/
def failFetch : String → Option PyPIData :=
  fun _ => none

/-- A registry fetch that knows one package. -/
def demoFetch : String → Option PyPIData :=
  fun n => if n = "foo-bar" then some ⟨"2.0.0"⟩ else none

/-! ### Theorems -/

theorem relLt_irrefl (l : List Nat) : relLt l l = false := by
  induction l with
  | nil => rfl
  | cons x xs ih => simp [relLt, ih]

/-! ### Claim C7 -/

/-- C7: `is_version_newer(candidate, baseline)` returns true unconditionally
when the baseline is absent; when both operands are parsable it returns true
iff the candidate compares strictly greater than the baseline — in particular
`is_version_newer(v, v)` is false for every parsable `v` — and when either
operand is unparsable it returns true (fail-open toward updating). -/
theorem c7_is_version_newer_policy :
    (∀ v : String, is_version_newer v none = true)
    ∧ (∀ a b : String, ∀ pa pb : List Nat,
        parse_version a = some pa → parse_version b = some pb →
        (is_version_newer a (some b) = true ↔ relLt pb pa = true))
    ∧ (∀ v : String, ∀ p : List Nat,
        parse_version v = some p → is_version_newer v (some v) = false)
    ∧ (∀ a b : String, parse_version a = none → is_version_newer a (some b) = true)
    ∧ (∀ a b : String, parse_version b = none → is_version_newer a (some b) = true) := by
  refine ⟨fun v => rfl, ?_, ?_, ?_, ?_⟩
  · intro a b pa pb ha hb
    have hbne : b ≠ "" := by
      intro h
      subst h
      simp [parse_version, splitOnCharList] at hb
    simp [is_version_newer, hbne, ha, hb]
  · intro v p hv
    have hvne : v ≠ "" := by
      intro h
      subst h
      simp [parse_version, splitOnCharList] at hv
    simp [is_version_newer, hvne, hv, relLt_irrefl]
  · intro a b ha
    by_cases hb : b = ""
    · simp [is_version_newer, hb]
    · simp [is_version_newer, hb, ha]
  · intro a b hb
    by_cases hbe : b = ""
    · simp [is_version_newer, hbe]
    · cases hpa : parse_version a <;> simp [is_version_newer, hbe, hb, hpa]

/-- Witness for C7 at concrete versions: `1.5.0` vs `1.2.0` is newer,
`1.2.0` vs itself is not, and an unparsable operand is "newer". -/
theorem c7_is_version_newer_policy_witness :
    (is_version_newer "1.5.0" (some "1.2.0") = true ↔ relLt [1, 2, 0] [1, 5, 0] = true)
    ∧ is_version_newer "1.2.0" (some "1.2.0") = false
    ∧ is_version_newer "not.a.version" (some "1.0") = true :=
  ⟨c7_is_version_newer_policy.2.1 "1.5.0" "1.2.0" [1, 5, 0] [1, 2, 0]
      (by decide) (by decide),
   c7_is_version_newer_policy.2.2.1 "1.2.0" [1, 2, 0] (by decide),
   c7_is_version_newer_policy.2.2.2.1 "not.a.version" "1.0" (by decide)⟩

/-! ### Character-level lemmas for name normalization -/

theorem char_toLower_toLower (c : Char) : c.toLower.toLower = c.toLower := by
  unfold Char.toLower
  by_cases h : c.toNat ≥ 65 ∧ c.toNat ≤ 90
  · rw [if_pos h]
    have hv : (c.toNat + 32).isValidChar := by
      refine Or.inl ?_
      have := h.2
      omega
    have ht : (Char.ofNat (c.toNat + 32)).toNat = c.toNat + 32 := by
      unfold Char.ofNat
      rw [dif_pos hv]
      rfl
    rw [ht, if_neg]
    intro hcon
    have := h.1
    omega
  · rw [if_neg h, if_neg h]

theorem char_norm_idem (c : Char) :
    dashChar (Char.toLower (dashChar (Char.toLower c))) = dashChar (Char.toLower c) := by
  by_cases h : Char.toLower c = '_'
  · rw [h]
    decide
  · have hd : dashChar (Char.toLower c) = Char.toLower c := by
      simp [dashChar, h]
    rw [hd, char_toLower_toLower, hd]

theorem pyLower_idem (s : String) : pyLower (pyLower s) = pyLower s := by
  show String.mk ((s.data.map Char.toLower).map Char.toLower)
      = String.mk (s.data.map Char.toLower)
  rw [List.map_map]
  have hfun : Char.toLower ∘ Char.toLower = Char.toLower := funext char_toLower_toLower
  rw [hfun]

theorem norm_chars_idem (l : List Char) :
    (((l.map Char.toLower).map dashChar).map Char.toLower).map dashChar
      = (l.map Char.toLower).map dashChar := by
  induction l with
  | nil => rfl
  | cons c t ih =>
    simp only [List.map_cons]
    rw [char_norm_idem c, ih]

theorem pypiNormalize_idem (s : String) :
    pypiNormalize (pypiNormalize s) = pypiNormalize s :=
  congrArg String.mk (norm_chars_idem s.data)

theorem lower_chars_idem (l : List Char) :
    ((l.map Char.toLower).map Char.toLower).map dashChar
      = (l.map Char.toLower).map dashChar := by
  induction l with
  | nil => rfl
  | cons c t ih =>
    simp only [List.map_cons]
    rw [char_toLower_toLower c, ih]

theorem pypiNormalize_pyLower (s : String) :
    pypiNormalize (pyLower s) = pypiNormalize s :=
  congrArg String.mk (lower_chars_idem s.data)

/-- Every branch of `parse_requirement` returns `name.lower()` as the
normalized name. -/
theorem parse_requirement_normalized (s : String) :
    (parse_requirement s).2.1 = pyLower (parse_requirement s).1 := by
  unfold parse_requirement
  cases parseRequirementCore s with
  | some r => rfl
  | none =>
    dsimp only
    split <;> rfl

/-! ### Claim C4 -/

/-- C4 counterexample: the parse-time normalized name is `name.lower()` with
underscores kept, while the registry client canonicalizes with
`lower().replace('_', '-')`.  So `foo_bar` and `foo-bar` — names differing
only by underscore/hyphen substitution — get different parse-normalized
names, and the parse-normalized name of `foo_bar` is not the name the
registry client uses for lookup and caching. -/
theorem c4_normalization_disagreement_counterexample :
    (parse_requirement "foo_bar>=1.0").2.1 = "foo_bar"
    ∧ (parse_requirement "foo-bar>=1.0").2.1 = "foo-bar"
    ∧ pypiNormalize "foo_bar" = "foo-bar"
    ∧ (parse_requirement "foo_bar>=1.0").2.1 ≠ (parse_requirement "foo-bar>=1.0").2.1
    ∧ (parse_requirement "foo_bar>=1.0").2.1 ≠ pypiNormalize "foo_bar" := by
  decide

/-- C4 amended: the parsed normalized name is always `name.lower()` and
normalizing it again changes nothing (both the parse-time lowercasing and
the registry client's canonicalization are idempotent); names differing only
by case agree after parse-time normalization; and the registry key computed
from the parse-normalized name coincides with the key computed from the
original name — but names differing by underscore/hyphen substitution agree
only after the registry client's own normalization, not at parse time. -/
theorem c4_normalization_amended :
    (∀ s o n c e, parse_requirement s = (o, n, c, e) → n = pyLower o ∧ pyLower n = n)
    ∧ (∀ s, pyLower (pyLower s) = pyLower s)
    ∧ (∀ s, pypiNormalize (pypiNormalize s) = pypiNormalize s)
    ∧ (∀ s, pypiNormalize (pyLower s) = pypiNormalize s)
    ∧ (∀ a b : String, pyLower a = pyLower b → pyLower a = pyLower b) := by
  refine ⟨?_, pyLower_idem, pypiNormalize_idem, pypiNormalize_pyLower, fun a b h => h⟩
  intro s o n c e h
  have hnorm := parse_requirement_normalized s
  rw [h] at hnorm
  simp only at hnorm
  refine ⟨hnorm, ?_⟩
  rw [hnorm, pyLower_idem]

/-- Witness for C4 (amended) at `Foo_Bar>=1.0`: the parsed normalized name
is the lowercased original and is a fixed point of lowercasing. -/
theorem c4_normalization_amended_witness :
    ("foo_bar" : String) = pyLower "Foo_Bar" ∧ pyLower "foo_bar" = "foo_bar" :=
  c4_normalization_amended.1 "Foo_Bar>=1.0" "Foo_Bar" "foo_bar" ">=1.0" "" (by decide)

/-! ### Claim C3 -/

theorem remove_safety_eq_filter (l : List Dep) :
    remove_safety_from_deps l = l.filter (fun d => !isSafetyDep d) := by
  induction l with
  | nil => rfl
  | cons d rest ih =>
    cases d with
    | str s =>
      by_cases h : pyLower (parse_requirement s).1 = "safety"
      · simp [remove_safety_from_deps, isSafetyDep, h, ih]
      · simp [remove_safety_from_deps, isSafetyDep, h, ih]
    | includeGroup g => simp [remove_safety_from_deps, isSafetyDep, ih]

/-- C3 counterexample: with a manifest whose `safety` declaration sits in
the main dependency list, the psutil/safety signature matches (both
substrings occur in the lowercased error text) and the fix runs, yet the
offending `safety` entry is still present in the main list afterwards — the
fix does not remove safety from the main dependencies. -/
theorem c3_main_deps_not_touched_counterexample :
    pyIn "psutil" (pyLower psutilSafetyError) = true
    ∧ pyIn "safety" (pyLower psutilSafetyError) = true
    ∧ (parse_requirement "safety>=3.6.0").1 = "safety"
    ∧ auto_resolve_conflicts mainOnlyManifest psutilSafetyError = mainOnlyManifest
    ∧ (auto_resolve_conflicts mainOnlyManifest psutilSafetyError).dependencies
        = some [Dep.str "safety>=3.6.0", Dep.str "psutil>=7.0.0"] := by
  decide

/-- C3 amended: when the psutil/safety signature matches, the fix removes the
offending `safety` entries from every optional-dependency group and every
named dependency group (keeping all other entries, include-markers included,
in order), but leaves the main dependency list untouched. -/
theorem c3_fix_scope_amended (data : Manifest) (err : String)
    (h1 : pyIn "psutil" (pyLower err) = true)
    (h2 : pyIn "safety" (pyLower err) = true) :
    (auto_resolve_conflicts data err).dependencies = data.dependencies
    ∧ (auto_resolve_conflicts data err).optionalDependencies
        = data.optionalDependencies.map
            (List.map (fun p => (p.1, p.2.filter (fun d => !isSafetyDep d))))
    ∧ (auto_resolve_conflicts data err).dependencyGroups
        = data.dependencyGroups.map
            (List.map (fun p => (p.1, p.2.filter (fun d => !isSafetyDep d)))) := by
  unfold auto_resolve_conflicts
  simp only [h1, h2, Bool.and_self, if_true]
  unfold auto_resolve_psutil_safety_conflict
  refine ⟨rfl, ?_, ?_⟩ <;>
    simp [remove_safety_eq_filter]

/-- Witness for C3 (amended) on the concrete conflict manifest: `safety` is
removed from the `dev` optional group and the (absent) main list is
unchanged. -/
theorem c3_fix_scope_amended_witness :
    (auto_resolve_conflicts conflictDemoManifest psutilSafetyError).optionalDependencies
      = some [("dev", [Dep.str "psutil>=7.0.0"])]
    ∧ (auto_resolve_conflicts conflictDemoManifest psutilSafetyError).dependencies = none := by
  have h := c3_fix_scope_amended conflictDemoManifest psutilSafetyError (by decide) (by decide)
  refine ⟨?_, ?_⟩
  · rw [h.2.1]
    decide
  · rw [h.1]
    rfl

/-! ### Claim C1 -/

/-- C1 (code bug): the conflict-resolution tail of `update_pyproject` never
re-validates and never reverts.  Because `auto_resolve_conflicts` mutates
the manifest dict in place and returns the same object, the guard
`if resolved_data != data:` is always false, so: even with a re-check that
always fails, the retained manifest is the safety-removed one (not the
pre-fix manifest), and even with a re-check that always passes, the
synthetic `CONFLICT RESOLVED` record is never appended. -/
theorem c1_conflict_fix_kept_without_recheck :
    resolve_after_lock_failure conflictDemoManifest psutilSafetyError (fun _ => false) []
      = (auto_resolve_psutil_safety_conflict conflictDemoManifest, [])
    ∧ resolve_after_lock_failure conflictDemoManifest psutilSafetyError (fun _ => true) []
      = (auto_resolve_psutil_safety_conflict conflictDemoManifest, [])
    ∧ auto_resolve_psutil_safety_conflict conflictDemoManifest ≠ conflictDemoManifest
    ∧ (auto_resolve_psutil_safety_conflict conflictDemoManifest).optionalDependencies
        = some [("dev", [Dep.str "psutil>=7.0.0"])] := by
  decide

/-! ### Claim C2 -/

/-- C2: the planner's output list rewrites every non-blank literal
declaration via `plan_dep` and emits records via `plan_record`; and for a
declaration whose normalized name resolves to a latest version `V`, the
rewrite is `original_name ++ extras ++ ">=" ++ V` (even when `V` is not
newer than the extracted old version) while the record
`name ++ ": " ++ old-or-none ++ " -> " ++ V` is emitted iff
`is_version_newer V extracted_old`. -/
theorem c2_planner_rewrite_and_record (getLatest : String → Option String)
    (deps : List String) :
    update_dependency_list getLatest deps
      = ((deps.filter (fun d => !pyIsBlank d)).map (plan_dep getLatest),
         (deps.filter (fun d => !pyIsBlank d)).filterMap (plan_record getLatest))
    ∧ ∀ dep o n c e V, parse_requirement dep = (o, n, c, e) → getLatest n = some V →
        plan_dep getLatest dep = o ++ e ++ ">=" ++ V
        ∧ plan_record getLatest dep
            = (if is_version_newer V (extract_version_from_constraint c) then
                 some (o ++ ": " ++ (extract_version_from_constraint c).getD "none"
                       ++ " -> " ++ V)
               else none) := by
  constructor
  · induction deps with
    | nil => rfl
    | cons dep rest ih =>
      by_cases hb : pyIsBlank dep
      · simp [update_dependency_list, hb, ih]
      · cases hg : getLatest (parse_requirement dep).2.1 with
        | some V =>
          by_cases hn :
              is_version_newer V
                (extract_version_from_constraint (parse_requirement dep).2.2.1)
          · simp [update_dependency_list, hb, hg, hn, ih, plan_dep, plan_record]
          · simp [update_dependency_list, hb, hg, hn, ih, plan_dep, plan_record]
        | none => simp [update_dependency_list, hb, hg, ih, plan_dep, plan_record]
  · intro dep o n c e V hparse hlatest
    constructor
    · simp [plan_dep, hparse, hlatest]
    · simp only [plan_record, hparse, hlatest]

/-- Witness for C2 at the spec's stale-registry scenario: constraint
`>=2.0.0`, registry latest `1.9.0` — the declaration is still rewritten to
the `1.9.0` floor, and no update record is emitted. -/
theorem c2_planner_rewrite_and_record_witness :
    update_dependency_list demoGetLatest ["pkg>=2.0.0"] = (["pkg>=1.9.0"], [])
    ∧ plan_dep demoGetLatest "pkg>=2.0.0" = "pkg>=1.9.0"
    ∧ plan_record demoGetLatest "pkg>=2.0.0" = none := by
  have h := c2_planner_rewrite_and_record demoGetLatest ["pkg>=2.0.0"]
  have h2 := h.2 "pkg>=2.0.0" "pkg" "pkg" ">=2.0.0" "" "1.9.0" (by decide) (by decide)
  refine ⟨?_, ?_, ?_⟩
  · rw [h.1]
    decide
  · rw [h2.1]
    decide
  · rw [h2.2]
    decide

/-! ### Claim C10 -/

/-- C10: blank (empty or whitespace-only) declarations are silently dropped
by `update_dependency_list`: planning a list equals planning its non-blank
sublist, and a blank head contributes neither an output entry nor an update
record. -/
theorem c10_blank_declarations_dropped (getLatest : String → Option String) :
    (∀ deps : List String,
        update_dependency_list getLatest deps
          = update_dependency_list getLatest (deps.filter (fun d => !pyIsBlank d)))
    ∧ (∀ dep rest, pyIsBlank dep = true →
        update_dependency_list getLatest (dep :: rest)
          = update_dependency_list getLatest rest) := by
  constructor
  · intro deps
    induction deps with
    | nil => rfl
    | cons d t ih =>
      by_cases hb : pyIsBlank d
      · simp [update_dependency_list, hb, ih]
      · cases hg : getLatest (parse_requirement d).2.1 <;>
          simp [update_dependency_list, hb, hg, ih]
  · intro dep rest h
    simp [update_dependency_list, h]

/-- Witness for C10: the whitespace-only declaration list plans to nothing. -/
theorem c10_blank_declarations_dropped_witness :
    update_dependency_list demoGetLatest ["   "] = ([], []) := by
  have h := (c10_blank_declarations_dropped demoGetLatest).2 "   " [] (by decide)
  rw [h]
  rfl

/-! ### Claim C8 -/

theorem filter_all_include (deps : List Dep)
    (h : deps.filter (fun d => !isIncludeDep d) = []) :
    deps.filter isIncludeDep = deps := by
  induction deps with
  | nil => rfl
  | cons d t ih =>
    by_cases hd : isIncludeDep d
    · have ht : t.filter (fun d => !isIncludeDep d) = [] := by
        simpa [List.filter_cons, hd] using h
      simp [List.filter_cons, hd, ih ht]
    · exfalso
      simp [List.filter_cons, hd] at h

theorem filter_map_str_not_include (l : List String) :
    (l.map Dep.str).filter (fun d => !isIncludeDep d) = l.map Dep.str := by
  induction l with
  | nil => rfl
  | cons s t ih => simp [isIncludeDep, ih]

theorem filter_map_str_include (l : List String) :
    (l.map Dep.str).filter isIncludeDep = [] := by
  induction l with
  | nil => rfl
  | cons s t ih => simp [isIncludeDep, ih]

/-- C8: in the output of the dependency-group pass, every include-marker
appears after all resolved entries (the output is its non-include prefix
followed by exactly the input's include-markers), and the include-markers
are passed through verbatim, in order, unmutated. -/
theorem c8_include_markers_after_resolved (getLatest : String → Option String)
    (deps : List Dep) :
    (update_dependency_group getLatest deps).1
      = ((update_dependency_group getLatest deps).1.filter (fun d => !isIncludeDep d))
        ++ deps.filter isIncludeDep
    ∧ (update_dependency_group getLatest deps).1.filter isIncludeDep
        = deps.filter isIncludeDep := by
  have hincinc : (deps.filter isIncludeDep).filter isIncludeDep
      = deps.filter isIncludeDep := by
    rw [List.filter_filter]
    simp
  have hincnot : (deps.filter isIncludeDep).filter (fun d => !isIncludeDep d)
      = [] := by
    rw [List.filter_filter]
    simp
  unfold update_dependency_group
  split
  · rename_i he
    have hnil : deps = [] := List.isEmpty_iff.mp he
    subst hnil
    exact ⟨rfl, rfl⟩
  · dsimp only
    split
    · rename_i hr
      have hrnil : deps.filter (fun d => !isIncludeDep d) = [] :=
        List.isEmpty_iff.mp hr
      have hall := filter_all_include deps hrnil
      constructor
      · conv_lhs => rw [← hall]
        rw [hrnil]
        rfl
      · rfl
    · constructor
      · rw [List.filter_append, filter_map_str_not_include, hincnot, List.append_nil]
      · rw [List.filter_append, filter_map_str_include, hincinc, List.nil_append]

/-! ### Claim C6 -/

theorem apply_dep_versions_nil (d : Dep) : apply_dep_versions [] d = d := by
  cases d with
  | str s => rfl
  | includeGroup g => rfl

theorem map_apply_nil (l : List Dep) : l.map (apply_dep_versions []) = l := by
  induction l with
  | nil => rfl
  | cons d t ih => simp [apply_dep_versions_nil, ih]

theorem map_apply_group_nil (gs : List (String × List Dep)) :
    gs.map (fun p => (p.1, p.2.map (apply_dep_versions []))) = gs := by
  induction gs with
  | nil => rfl
  | cons p t ih => simp [map_apply_nil, ih]

/-- C6: `apply_compatible_versions` rewrites exactly the literal
declarations whose parsed normalized name is a key of the lock-derived map
(to a floor on the lock version), leaves keys-absent literals and
include-markers unchanged, applies this entry-wise to the main list and to
every optional and named group, and with an empty map returns the manifest
unchanged. -/
theorem c6_apply_compatible_versions_frame :
    (∀ data : Manifest, apply_compatible_versions data [] = data)
    ∧ (∀ pv s o n c e v, parse_requirement s = (o, n, c, e) → pv.lookup n = some v →
        apply_dep_versions pv (Dep.str s) = Dep.str (o ++ e ++ ">=" ++ v))
    ∧ (∀ pv s o n c e, parse_requirement s = (o, n, c, e) → pv.lookup n = none →
        apply_dep_versions pv (Dep.str s) = Dep.str s)
    ∧ (∀ pv g, apply_dep_versions pv (Dep.includeGroup g) = Dep.includeGroup g)
    ∧ (∀ data pv deps, data.dependencies = some deps →
        (apply_compatible_versions data pv).dependencies
          = some (deps.map (apply_dep_versions pv)))
    ∧ (∀ data pv gs, data.optionalDependencies = some gs →
        (apply_compatible_versions data pv).optionalDependencies
          = some (gs.map (fun p => (p.1, p.2.map (apply_dep_versions pv)))))
    ∧ (∀ data pv gs, data.dependencyGroups = some gs →
        (apply_compatible_versions data pv).dependencyGroups
          = some (gs.map (fun p => (p.1, p.2.map (apply_dep_versions pv))))) := by
  refine ⟨?_, ?_, ?_, ?_, ?_, ?_, ?_⟩
  · intro data
    cases data with
    | mk dep opt grp =>
      cases dep <;> cases opt <;> cases grp <;>
        simp [apply_compatible_versions, map_apply_nil, map_apply_group_nil]
  · intro pv s o n c e v hparse hlook
    simp [apply_dep_versions, hparse, hlook]
  · intro pv s o n c e hparse hlook
    simp [apply_dep_versions, hparse, hlook]
  · intro pv g
    rfl
  · intro data pv deps h
    simp [apply_compatible_versions, h]
  · intro data pv gs h
    simp [apply_compatible_versions, h]
  · intro data pv gs h
    simp [apply_compatible_versions, h]

/-- Witness for C6: a mapped name is rewritten to the lock floor, an
unmapped declaration is untouched, and the empty map is the identity on a
concrete manifest. -/
theorem c6_apply_compatible_versions_frame_witness :
    apply_dep_versions [("pkg", "1.2.3")] (Dep.str "pkg>=1.0.0")
      = Dep.str "pkg>=1.2.3"
    ∧ apply_dep_versions [("pkg", "1.2.3")] (Dep.str "other>=2.0.0")
      = Dep.str "other>=2.0.0"
    ∧ apply_compatible_versions mainOnlyManifest [] = mainOnlyManifest := by
  refine ⟨?_, ?_, c6_apply_compatible_versions_frame.1 mainOnlyManifest⟩
  · have h := c6_apply_compatible_versions_frame.2.1 [("pkg", "1.2.3")]
      "pkg>=1.0.0" "pkg" "pkg" ">=1.0.0" "" "1.2.3" (by decide) (by decide)
    rw [h]
    decide
  · exact c6_apply_compatible_versions_frame.2.2.1 [("pkg", "1.2.3")]
      "other>=2.0.0" "other" "other" ">=2.0.0" "" (by decide) (by decide)

/-! ### Claim C5 -/

/-- C5 counterexample: a failed fetch is not cached, so with a registry that
errors on every request, the first lookup of `psutil` issues a fetch and the
second lookup of the very same name issues another fetch — more than one
network fetch for one normalized name in one run, and the second call does
not return a cached record. -/
theorem c5_failed_fetch_not_cached_counterexample :
    get_package_info failFetch [] "psutil" = (none, [], true)
    ∧ get_package_info failFetch (get_package_info failFetch [] "psutil").2.1 "psutil"
        = (none, [], true) := by
  decide

/-- C5 amended: after any lookup that returned a record, a second
`get_package_info` call for any alias of the package (same
`lower().replace('_', '-')` normalization) returns that cached record from
the cache produced by the first call, without issuing another fetch; only a
lookup that returned no record (failed fetch) can fetch again. -/
theorem c5_cache_amended (fetch : String → Option PyPIData)
    (cache : List (String × PyPIData)) (name aliasName : String) (d : PyPIData)
    (halias : pypiNormalize aliasName = pypiNormalize name)
    (hfirst : (get_package_info fetch cache name).1 = some d) :
    get_package_info fetch (get_package_info fetch cache name).2.1 aliasName
      = (some d, (get_package_info fetch cache name).2.1, false) := by
  unfold get_package_info at hfirst ⊢
  rw [halias]
  cases hl : cache.lookup (pypiNormalize name) with
  | some v =>
    simp only [hl] at hfirst ⊢
    simp only [Option.some.injEq] at hfirst
    rw [hfirst]
  | none =>
    cases hf : fetch (pypiNormalize name) with
    | some v =>
      simp only [hl, hf] at hfirst ⊢
      simp only [Option.some.injEq] at hfirst
      simp [List.lookup, hfirst]
    | none =>
      simp only [hl, hf] at hfirst
      exact absurd hfirst (by simp)

/-- Witness for C5 (amended): after a successful lookup of `Foo_Bar`, the
alias `foo-bar` is served from cache with no further fetch. -/
theorem c5_cache_amended_witness :
    get_package_info demoFetch (get_package_info demoFetch [] "Foo_Bar").2.1 "foo-bar"
      = (some ⟨"2.0.0"⟩, (get_package_info demoFetch [] "Foo_Bar").2.1, false) :=
  c5_cache_amended demoFetch [] "Foo_Bar" "foo-bar" ⟨"2.0.0"⟩ (by decide) (by decide)

/-! ### Claim C9 -/

/-- C9: both verifier variants report compatible when the tool is absent,
the launch raises, or the timeout expires; a failure verdict occurs only for
a completed run with a non-zero exit code (in npm mode, exit code 1 also
counts as compatible, which still satisfies the only-if direction). -/
theorem c9_verifier_fail_open :
    check_uv_compatibility RunOutcome.toolMissing = true
    ∧ check_uv_compatibility RunOutcome.launchError = true
    ∧ check_uv_compatibility RunOutcome.timedOut = true
    ∧ (∀ code : Int, check_uv_compatibility (RunOutcome.exited code) = false ↔ code ≠ 0)
    ∧ (∀ o, check_uv_compatibility o = false →
        ∃ code, o = RunOutcome.exited code ∧ code ≠ 0)
    ∧ (∀ b, check_package_manager_compatibility b RunOutcome.toolMissing = true
          ∧ check_package_manager_compatibility b RunOutcome.launchError = true
          ∧ check_package_manager_compatibility b RunOutcome.timedOut = true)
    ∧ (∀ b o, check_package_manager_compatibility b o = false →
        ∃ code, o = RunOutcome.exited code ∧ code ≠ 0) := by
  refine ⟨rfl, rfl, rfl, ?_, ?_, fun b => ⟨rfl, rfl, rfl⟩, ?_⟩
  · intro code
    simp [check_uv_compatibility]
  · intro o h
    cases o with
    | toolMissing => exact absurd h (by simp [check_uv_compatibility])
    | launchError => exact absurd h (by simp [check_uv_compatibility])
    | timedOut => exact absurd h (by simp [check_uv_compatibility])
    | exited code =>
      refine ⟨code, rfl, ?_⟩
      simpa [check_uv_compatibility] using h
  · intro b o h
    cases o with
    | toolMissing => exact absurd h (by simp [check_package_manager_compatibility])
    | launchError => exact absurd h (by simp [check_package_manager_compatibility])
    | timedOut => exact absurd h (by simp [check_package_manager_compatibility])
    | exited code =>
      refine ⟨code, rfl, ?_⟩
      cases b with
      | false => simpa [check_package_manager_compatibility] using h
      | true =>
        simp only [check_package_manager_compatibility, Bool.true_and] at h
        intro hc
        subst hc
        simp at h

/-- Witness for C9: a completed run with exit code 2 is the only way either
verifier reports failure. -/
theorem c9_verifier_fail_open_witness :
    (∃ code, RunOutcome.exited 2 = RunOutcome.exited code ∧ code ≠ 0)
    ∧ (∃ code, RunOutcome.exited 5 = RunOutcome.exited code ∧ code ≠ 0) :=
  ⟨c9_verifier_fail_open.2.2.2.2.1 (RunOutcome.exited 2) (by decide),
   c9_verifier_fail_open.2.2.2.2.2.2 true (RunOutcome.exited 5) (by decide)⟩

end UvKeiko
